import Mathlib

/-!
Shallow embedding of the NovaCoreAI MCP gateway's request-orchestration layer
(`src/services/mcp-server/src/{middleware,services,routes,errors,models}.rs`).

Handlers are modelled as pure functions from the inbound request, the backend
HTTP outcome, and the elapsed duration (an oracle for `Instant::elapsed`,
a `Nat` mirroring Rust's unsigned `Duration`) to a trace recording the
handler's result, the outbound backend calls issued, and the metrics
observations recorded via `metrics::observe_request`.
-/

namespace NovaCore

/-- A serde_json `Value`. `int`/`num` split the serde number representation;
`as_f64` succeeds on both, integer extraction only on `int`. -/
inductive Json where
  | null
  | bool (b : Bool)
  | int (n : Int)
  | num (x : Float)
  | str (s : String)
  | arr (elems : List Json)
  | obj (fields : List (String × Json))

/-- serde_json `Value` indexing by key: returns `null` on a non-object or a
missing key, as `Value::index` does. -/
def Json.index (j : Json) (key : String) : Json :=
  match j with
  | .obj fields =>
    match fields.find? (fun p => p.fst == key) with
    | some p => p.snd
    | none => .null
  | _ => .null

/-- `Value::as_str`. -/
def Json.asStr : Json → Option String
  | .str s => some s
  | _ => none

/-- `Value::as_array`. -/
def Json.asArr : Json → Option (List Json)
  | .arr elems => some elems
  | _ => none

/-- `Value::as_f64`: succeeds on any JSON number. -/
def Json.asF64 : Json → Option Float
  | .int n => some (Float.ofInt n)
  | .num x => some x
  | _ => none

/-- The gateway error taxonomy (`errors.rs`, enum `McpError`). -/
inductive McpError where
  | ServiceUnavailable (msg : String)
  | InvalidRequest (msg : String)
  | Unauthorized (msg : String)
  | NotFound (msg : String)
  | InternalError (msg : String)
deriving DecidableEq

/-- `ResponseError::status_code` for `McpError` (`errors.rs`). -/
def McpError.status_code : McpError → Nat
  | .ServiceUnavailable _ => 503
  | .InvalidRequest _ => 400
  | .Unauthorized _ => 401
  | .NotFound _ => 404
  | .InternalError _ => 500

/-- An HTTP response from a backend: its status code and its body.
`body` is `Except String Json`: `.error e` models a body on which
`response.json()` fails with serde error message `e`. -/
structure HttpResponse where
  status : Nat
  body : Except String Json

/-- Outcome of one outbound backend call: either a transport-level failure
(`reqwest::Error` from `send().await`) or a received response. -/
inductive BackendOutcome where
  | transportError (msg : String)
  | response (r : HttpResponse)

/-- `StatusCode::is_success`: 2xx. -/
def statusIsSuccess (s : Nat) : Bool :=
  decide (200 ≤ s ∧ s < 300)

-- Models from `models.rs`.

abbrev Uuid := String

structure ContextFetchRequest where
  file_path : String
  file_content : Option String
  language : Option String
  limit : Option Nat

structure MemoryItem where
  id : String
  content : String
  tier : String
  confidence_score : Float
  created_at : String

structure ContextFetchResponse where
  memories : List MemoryItem
  context_summary : String

structure MemoryLogRequest where
  file_path : String
  action : String
  content : Option String
  outcome : Option String
  metadata : Option Json

structure MemoryLogResponse where
  memory_id : String
  stored : Bool
  message : String
deriving DecidableEq

structure TaskSubmitRequest where
  task_description : String
  file_context : Option String
  session_id : Option Uuid

structure TaskSubmitResponse where
  session_id : String
  response : String
  tokens_used : Option Int
deriving DecidableEq

structure HealthResponse where
  status : String
  version : String
  memory_service : Bool
  intelligence_service : Bool
deriving DecidableEq

structure MemorySearchRequest where
  query : String
  limit : Option Nat
  tier : Option String
deriving DecidableEq

structure MemoryStoreRequest where
  memory_type : String
  input_context : String
  output_response : Option String
  outcome : Option String
  tier : String
  tags : Option (List String)
deriving DecidableEq

structure ChatMessageRequest where
  message : String
  session_id : Option Uuid
  use_memory : Bool
deriving DecidableEq

structure ChatMessageResponse where
  session_id : String
  response : String
  tokens_used : Option Int
deriving DecidableEq

-- Identity extraction from `middleware.rs`.

/-- The inbound actix request, restricted to what `extract_user_id` reads:
a `String` possibly stored in the request extensions by upstream middleware,
and the header map. A header value of `none` models a value on which
`HeaderValue::to_str` fails (non-visible-ASCII bytes). -/
structure HttpRequest where
  extensions_user : Option String
  headers : List (String × Option String)

/-- `req.headers().get(name)`: first header with that name, if any. -/
def headerGet (req : HttpRequest) (name : String) : Option (Option String) :=
  (req.headers.find? (fun p => p.fst == name)).map (fun p => p.snd)

/-- The string value of a header: present and `to_str` succeeded. -/
def headerStrValue (req : HttpRequest) (name : String) : Option String :=
  match headerGet req name with
  | some (some v) => some v
  | _ => none

/-- `middleware.rs` `extract_user_id`: extensions first, then the `X-User-Id`
header; the `Authorization` Bearer branch only logs (the token is recognized
but never decoded) and every path through it returns `None`. -/
def extract_user_id (req : HttpRequest) : Option String :=
  match req.extensions_user with
  | some user_id => some user_id
  | none =>
    match headerGet req "X-User-Id" with
    | some (some user_id) => some user_id
    | _ =>
      match headerGet req "Authorization" with
      | some (some _auth_str) => none
      | _ => none

-- Backend clients from `services.rs`.

/-- The search payload built by `MemoryServiceClient::search_memories`. -/
def searchRequestBody (query : String) (limit : Option Nat) : MemorySearchRequest :=
  { query := query, limit := limit, tier := none }

/-- Defensive per-entry parsing of one search result
(`services.rs` lines 55-65). -/
def parseMemoryItem (m : Json) : MemoryItem :=
  { id := (Json.asStr (m.index "id")).getD ""
  , content := "Input: " ++ (Json.asStr (m.index "input_context")).getD ""
      ++ "\nOutput: " ++ (Json.asStr (m.index "output_response")).getD ""
  , tier := (Json.asStr (m.index "tier")).getD "ltm"
  , confidence_score := (Json.asF64 (m.index "confidence_score")).getD 0.0
  , created_at := (Json.asStr (m.index "created_at")).getD "" }

/-- Response classification of `MemoryServiceClient::search_memories`:
transport failure → `ServiceUnavailable` (via `From<reqwest::Error>`);
status ≠ 200 → `ServiceUnavailable`; body that fails to deserialize →
`InternalError`; missing or non-array `results` → `InternalError`;
otherwise each entry parsed defensively. -/
def classifySearchResponse (outcome : BackendOutcome) :
    Except McpError (List MemoryItem) :=
  match outcome with
  | .transportError msg => .error (.ServiceUnavailable msg)
  | .response r =>
    if r.status ≠ 200 then
      .error (.ServiceUnavailable
        ("Memory service returned status: " ++ toString r.status))
    else
      match r.body with
      | .error e =>
        .error (.InternalError ("Failed to parse memory response: " ++ e))
      | .ok result =>
        match Json.asArr (result.index "results") with
        | none => .error (.InternalError "Invalid memory response format")
        | some entries => .ok (entries.map parseMemoryItem)

/-- The store payload built by `MemoryServiceClient::store_memory`:
tier is the fixed string "ltm". -/
def storeRequestBody (memory_type : String) (input_context : String)
    (output_response : Option String) (outcome : Option String)
    (tags : Option (List String)) : MemoryStoreRequest :=
  { memory_type := memory_type, input_context := input_context
  , output_response := output_response, outcome := outcome
  , tier := "ltm", tags := tags }

/-- Response classification of `MemoryServiceClient::store_memory`:
transport failure → `ServiceUnavailable`; status outside {200, 201} →
`ServiceUnavailable`; body that fails to deserialize → `InternalError`;
otherwise the `id` field, defaulting to the empty string when absent. -/
def classifyStoreResponse (outcome : BackendOutcome) : Except McpError String :=
  match outcome with
  | .transportError msg => .error (.ServiceUnavailable msg)
  | .response r =>
    if r.status ≠ 200 ∧ r.status ≠ 201 then
      .error (.ServiceUnavailable
        ("Memory service returned status: " ++ toString r.status))
    else
      match r.body with
      | .error e =>
        .error (.InternalError ("Failed to parse store response: " ++ e))
      | .ok result => .ok ((Json.asStr (result.index "id")).getD "")

/-- The chat payload built by `IntelligenceServiceClient::send_message`. -/
def chatRequestBody (message : String) (session_id : Option Uuid)
    (use_memory : Bool) : ChatMessageRequest :=
  { message := message, session_id := session_id, use_memory := use_memory }

/-- serde deserialization of the intelligence backend's reply into
`ChatMessageResponse`: `session_id` and `response` are required strings;
`tokens_used` is an optional integer (absent or `null` → `none`). -/
def parseChatMessageResponse (j : Json) : Option ChatMessageResponse :=
  match Json.asStr (j.index "session_id"), Json.asStr (j.index "response") with
  | some sid, some resp =>
    match j.index "tokens_used" with
    | .null => some { session_id := sid, response := resp, tokens_used := none }
    | .int n => some { session_id := sid, response := resp, tokens_used := some n }
    | _ => none
  | _, _ => none

/-- Response classification of `IntelligenceServiceClient::send_message`. -/
def classifyChatResponse (outcome : BackendOutcome) :
    Except McpError ChatMessageResponse :=
  match outcome with
  | .transportError msg => .error (.ServiceUnavailable msg)
  | .response r =>
    if r.status ≠ 200 then
      .error (.ServiceUnavailable
        ("Intelligence service returned status: " ++ toString r.status))
    else
      match r.body with
      | .error e =>
        .error (.InternalError ("Failed to parse intelligence response: " ++ e))
      | .ok j =>
        match parseChatMessageResponse j with
        | none =>
          .error (.InternalError
            "Failed to parse intelligence response: missing field")
        | some result => .ok result

/-- `MemoryServiceClient::health_check`:
`send().await.map(|r| r.status().is_success()).unwrap_or(false)`. -/
def memoryHealthProbe (outcome : BackendOutcome) : Bool :=
  match outcome with
  | .transportError _ => false
  | .response r => statusIsSuccess r.status

/-- `IntelligenceServiceClient::health_check`: same collapse-to-bool body. -/
def intelligenceHealthProbe (outcome : BackendOutcome) : Bool :=
  match outcome with
  | .transportError _ => false
  | .response r => statusIsSuccess r.status

-- Handler traces.

/-- One `metrics::observe_request(endpoint, status, duration)` record.
`duration` is a `Nat`, mirroring Rust's unsigned `Duration`. -/
structure EndpointObservation where
  endpoint : String
  outcome : String
  duration : Nat
deriving DecidableEq

/-- One outbound backend call, with the identity attached as the
`X-User-Id` header and the serialized payload. -/
inductive OutboundCall where
  | memorySearch (user_id : String) (body : MemorySearchRequest)
  | memoryStore (user_id : String) (body : MemoryStoreRequest)
  | chatMessage (user_id : String) (body : ChatMessageRequest)
  | healthProbe (service : String)
deriving DecidableEq

/-- What one handler invocation did: its returned result, the backend calls
it issued (in order), and the metrics observations it recorded (in order). -/
structure HandlerTrace (α : Type) where
  result : Except McpError α
  calls : List OutboundCall
  observations : List EndpointObservation

/-- Whether an `Except` result is a success (`Ok`). -/
def exceptIsOk {α : Type} : Except McpError α → Bool
  | .ok _ => true
  | .error _ => false

-- The four operation handlers from `routes.rs`.

/-- `GET /mcp/health` (`routes.rs` `health_check`): probes both backends,
aggregates, records one success observation, never errors. -/
def health_check (memOutcome intOutcome : BackendOutcome) (version : String)
    (elapsed : Nat) : HandlerTrace HealthResponse :=
  let memory_ok := memoryHealthProbe memOutcome
  let intelligence_ok := intelligenceHealthProbe intOutcome
  let response : HealthResponse :=
    { status := if memory_ok && intelligence_ok then "healthy" else "degraded"
    , version := version
    , memory_service := memory_ok
    , intelligence_service := intelligence_ok }
  { result := .ok response
  , calls := [.healthProbe "memory", .healthProbe "intelligence"]
  , observations :=
      [{ endpoint := "/mcp/health", outcome := "success", duration := elapsed }] }

/-- `POST /mcp/context/fetch` (`routes.rs` `fetch_context`). -/
def fetch_context (req : HttpRequest) (request : ContextFetchRequest)
    (memOutcome : BackendOutcome) (elapsed : Nat) :
    HandlerTrace ContextFetchResponse :=
  match extract_user_id req with
  | none =>
    { result := .error (.Unauthorized "User ID not found in request")
    , calls := []
    , observations := [{ endpoint := "/mcp/context/fetch", outcome := "error"
                       , duration := elapsed }] }
  | some user_id =>
    let query :=
      match request.file_content with
      | some content => request.file_path ++ " " ++ content
      | none => request.file_path
    let limit := request.limit.getD 5
    let call := OutboundCall.memorySearch user_id
      (searchRequestBody query (some limit))
    match classifySearchResponse memOutcome with
    | .error err =>
      { result := .error err
      , calls := [call]
      , observations := [{ endpoint := "/mcp/context/fetch", outcome := "error"
                         , duration := elapsed }] }
    | .ok memories =>
      let context_summary :=
        if memories.isEmpty then "No relevant context found."
        else "Found " ++ toString memories.length
          ++ " relevant memory items related to " ++ request.file_path
      { result := .ok { memories := memories, context_summary := context_summary }
      , calls := [call]
      , observations := [{ endpoint := "/mcp/context/fetch", outcome := "success"
                         , duration := elapsed }] }

/-- `POST /mcp/memory/log` (`routes.rs` `log_memory`). -/
def log_memory (req : HttpRequest) (request : MemoryLogRequest)
    (memOutcome : BackendOutcome) (elapsed : Nat) :
    HandlerTrace MemoryLogResponse :=
  match extract_user_id req with
  | none =>
    { result := .error (.Unauthorized "User ID not found in request")
    , calls := []
    , observations := [{ endpoint := "/mcp/memory/log", outcome := "error"
                       , duration := elapsed }] }
  | some user_id =>
    let input_context := "File: " ++ request.file_path
      ++ "\nAction: " ++ request.action
      ++ "\n" ++ request.content.getD ""
    let output_response := request.outcome
    let tags := some [request.action, "vscode", "mcp"]
    let call := OutboundCall.memoryStore user_id
      (storeRequestBody "code_interaction" input_context output_response
        request.outcome tags)
    match classifyStoreResponse memOutcome with
    | .error err =>
      { result := .error err
      , calls := [call]
      , observations := [{ endpoint := "/mcp/memory/log", outcome := "error"
                         , duration := elapsed }] }
    | .ok memory_id =>
      { result := .ok { memory_id := memory_id, stored := true
                      , message := "Memory " ++ memory_id ++ " stored successfully" }
      , calls := [call]
      , observations := [{ endpoint := "/mcp/memory/log", outcome := "success"
                         , duration := elapsed }] }

/-- `POST /mcp/task/submit` (`routes.rs` `submit_task`). -/
def submit_task (req : HttpRequest) (request : TaskSubmitRequest)
    (intOutcome : BackendOutcome) (elapsed : Nat) :
    HandlerTrace TaskSubmitResponse :=
  match extract_user_id req with
  | none =>
    { result := .error (.Unauthorized "User ID not found in request")
    , calls := []
    , observations := [{ endpoint := "/mcp/task/submit", outcome := "error"
                       , duration := elapsed }] }
  | some user_id =>
    let message :=
      match request.file_context with
      | some context =>
        "File Context:\n" ++ context ++ "\n\nTask: " ++ request.task_description
      | none => request.task_description
    let call := OutboundCall.chatMessage user_id
      (chatRequestBody message request.session_id true)
    match classifyChatResponse intOutcome with
    | .error err =>
      { result := .error err
      , calls := [call]
      , observations := [{ endpoint := "/mcp/task/submit", outcome := "error"
                         , duration := elapsed }] }
    | .ok result =>
      { result := .ok { session_id := result.session_id
                      , response := result.response
                      , tokens_used := result.tokens_used }
      , calls := [call]
      , observations := [{ endpoint := "/mcp/task/submit", outcome := "success"
                         , duration := elapsed }] }

-- Theorems settling the claims.

/-- Claim C3: for every combination of the two backend health-probe outcomes,
the health handler returns a success response whose status is "healthy" iff
both probes return true and "degraded" otherwise, and never returns an error
response. -/
theorem C3_health_status (m i : BackendOutcome) (v : String) (e : Nat) :
    ∃ r : HealthResponse, (health_check m i v e).result = Except.ok r ∧
      (r.status = "healthy" ↔
        memoryHealthProbe m = true ∧ intelligenceHealthProbe i = true) ∧
      (r.status = "healthy" ∨ r.status = "degraded") := by
  refine ⟨_, rfl, ?_, ?_⟩
  · cases hm : memoryHealthProbe m <;> cases hi : intelligenceHealthProbe i <;>
      simp [health_check, hm, hi]
  · cases hm : memoryHealthProbe m <;> cases hi : intelligenceHealthProbe i <;>
      simp [health_check, hm, hi]

/-- Claim C4: every non-200 search response is classified `ServiceUnavailable`
(hence never `InvalidRequest` or `NotFound`); a 200 response whose body fails
to deserialize, or lacks a list-valued `results` field, is `InternalError`;
a 200 response with an empty `results` list is a success with an empty
memory list. -/
theorem C4_search_classification :
    (∀ (s : Nat) (body : Except String Json), s ≠ 200 →
      classifySearchResponse (.response ⟨s, body⟩) =
        .error (.ServiceUnavailable
          ("Memory service returned status: " ++ toString s))) ∧
    (∀ e : String, classifySearchResponse (.response ⟨200, .error e⟩) =
      .error (.InternalError ("Failed to parse memory response: " ++ e))) ∧
    (∀ j : Json, Json.asArr (j.index "results") = none →
      classifySearchResponse (.response ⟨200, .ok j⟩) =
        .error (.InternalError "Invalid memory response format")) ∧
    (∀ j : Json, Json.asArr (j.index "results") = some [] →
      classifySearchResponse (.response ⟨200, .ok j⟩) = .ok []) := by
  refine ⟨?_, ?_, ?_, ?_⟩
  · intro s body h
    simp [classifySearchResponse, h]
  · intro e
    simp [classifySearchResponse]
  · intro j h
    simp [classifySearchResponse, h]
  · intro j h
    simp [classifySearchResponse, h]

/-- Witness for C4 at concrete inputs: status 404, an undecodable 200 body,
a 200 body with no `results` field, and a 200 body with an empty list. -/
theorem C4_search_classification_witness :
    classifySearchResponse (.response ⟨404, .ok .null⟩) =
      .error (.ServiceUnavailable "Memory service returned status: 404") ∧
    classifySearchResponse (.response ⟨200, .error "expected value"⟩) =
      .error (.InternalError "Failed to parse memory response: expected value") ∧
    classifySearchResponse (.response ⟨200, .ok (.obj [])⟩) =
      .error (.InternalError "Invalid memory response format") ∧
    classifySearchResponse (.response ⟨200, .ok (.obj [("results", .arr [])])⟩) =
      .ok [] :=
  ⟨C4_search_classification.1 404 (.ok .null) (by decide),
   C4_search_classification.2.1 "expected value",
   C4_search_classification.2.2.1 (.obj []) rfl,
   C4_search_classification.2.2.2 (.obj [("results", .arr [])]) rfl⟩

/-- Claim C5 counterexample: a store response with HTTP status 200 whose body
fails to deserialize yields `InternalError`, i.e. the store call does NOT
succeed, refuting "store succeeds exactly when the HTTP status is 200 or
201". -/
theorem C5_store_counterexample :
    classifyStoreResponse (.response ⟨200, .error "expected value"⟩) =
      .error (.InternalError "Failed to parse store response: expected value") ∧
    exceptIsOk (classifyStoreResponse (.response ⟨200, .error "expected value"⟩))
      = false := by
  constructor <;> rfl

/-- Claim C5 (amended): store succeeds exactly when the HTTP status is 200 or
201 AND the body deserializes as JSON; any other status returns
`ServiceUnavailable` (regardless of body); a success response whose body
lacks an `id` field yields the empty string as memory id, not an error. -/
theorem C5_store_classification (s : Nat) :
    (∀ body, s ≠ 200 → s ≠ 201 →
      classifyStoreResponse (.response ⟨s, body⟩) =
        .error (.ServiceUnavailable
          ("Memory service returned status: " ++ toString s))) ∧
    (∀ e : String, s = 200 ∨ s = 201 →
      classifyStoreResponse (.response ⟨s, .error e⟩) =
        .error (.InternalError ("Failed to parse store response: " ++ e))) ∧
    (∀ j : Json, s = 200 ∨ s = 201 →
      classifyStoreResponse (.response ⟨s, .ok j⟩) =
        .ok ((Json.asStr (j.index "id")).getD "")) ∧
    (∀ j : Json, s = 200 ∨ s = 201 → Json.asStr (j.index "id") = none →
      classifyStoreResponse (.response ⟨s, .ok j⟩) = .ok "") ∧
    (∀ body, exceptIsOk (classifyStoreResponse (.response ⟨s, body⟩)) = true ↔
      (s = 200 ∨ s = 201) ∧ ∃ j, body = Except.ok j) := by
  refine ⟨?_, ?_, ?_, ?_, ?_⟩
  · intro body h1 h2
    simp [classifyStoreResponse, h1, h2]
  · intro e h
    rcases h with rfl | rfl <;> simp [classifyStoreResponse]
  · intro j h
    rcases h with rfl | rfl <;> simp [classifyStoreResponse]
  · intro j h hid
    rcases h with rfl | rfl <;> simp [classifyStoreResponse, hid]
  · intro body
    constructor
    · intro hok
      by_cases h200 : s = 200
      · cases body with
        | ok j => exact ⟨Or.inl h200, j, rfl⟩
        | error e =>
          subst h200
          simp [classifyStoreResponse, exceptIsOk] at hok
      · by_cases h201 : s = 201
        · cases body with
          | ok j => exact ⟨Or.inr h201, j, rfl⟩
          | error e =>
            subst h201
            simp [classifyStoreResponse, exceptIsOk] at hok
        · simp [classifyStoreResponse, h200, h201, exceptIsOk] at hok
    · rintro ⟨hs, j, rfl⟩
      rcases hs with rfl | rfl <;> simp [classifyStoreResponse, exceptIsOk]

/-- Witness for C5 (amended) at concrete inputs: status 503 rejected, a 201
response whose body fails to deserialize is `InternalError`, status 201 with
an `id` field succeeds with that id, status 200 with no `id` field succeeds
with the empty string, and the success-iff holds at a concrete 200 success. -/
theorem C5_store_classification_witness :
    classifyStoreResponse (.response ⟨503, .ok .null⟩) =
      .error (.ServiceUnavailable "Memory service returned status: 503") ∧
    classifyStoreResponse (.response ⟨201, .error "bad json"⟩) =
      .error (.InternalError "Failed to parse store response: bad json") ∧
    classifyStoreResponse (.response ⟨201, .ok (.obj [("id", .str "m-1")])⟩) =
      .ok "m-1" ∧
    classifyStoreResponse (.response ⟨200, .ok (.obj [])⟩) = .ok "" ∧
    exceptIsOk (classifyStoreResponse (.response ⟨200, .ok (.obj [])⟩)) = true :=
  ⟨(C5_store_classification 503).1 (.ok .null) (by decide) (by decide),
   (C5_store_classification 201).2.1 "bad json" (Or.inr rfl),
   (C5_store_classification 201).2.2.1 (.obj [("id", .str "m-1")]) (Or.inr rfl),
   (C5_store_classification 200).2.2.2.1 (.obj []) (Or.inl rfl) rfl,
   ((C5_store_classification 200).2.2.2.2 (.ok (.obj []))).mpr
     ⟨Or.inl rfl, .obj [], rfl⟩⟩

/-- Claim C6: the concrete memory-log scenario — file_path "a.py", action
"save", identity "u1" — issues a store call with tags ["save","vscode","mcp"],
tier "ltm" and type "code_interaction", and on backend success with id "m-1"
responds with memory_id "m-1", stored true and the fixed success message. -/
theorem C6_memory_log_scenario :
    (log_memory ⟨some "u1", []⟩ ⟨"a.py", "save", none, none, none⟩
      (.response ⟨200, .ok (.obj [("id", .str "m-1")])⟩) 0).calls =
      [.memoryStore "u1"
        { memory_type := "code_interaction"
        , input_context := "File: a.py\nAction: save\n"
        , output_response := none
        , outcome := none
        , tier := "ltm"
        , tags := some ["save", "vscode", "mcp"] }] ∧
    (log_memory ⟨some "u1", []⟩ ⟨"a.py", "save", none, none, none⟩
      (.response ⟨200, .ok (.obj [("id", .str "m-1")])⟩) 0).result =
      .ok { memory_id := "m-1", stored := true
          , message := "Memory m-1 stored successfully" } := by
  constructor <;> rfl

/-- Claim C1: every invocation of each of the four operation handlers records
exactly one `EndpointObservation`, on every exit path, whose outcome is
"success" exactly when the handler returns a success result and "error"
otherwise; durations (of type `Nat`, mirroring Rust's unsigned `Duration`)
are non-negative. -/
theorem C1_single_observation :
    (∀ m i v e, (health_check m i v e).observations =
      [⟨"/mcp/health",
        if exceptIsOk (health_check m i v e).result then "success" else "error",
        e⟩]) ∧
    (∀ req r m e, (fetch_context req r m e).observations =
      [⟨"/mcp/context/fetch",
        if exceptIsOk (fetch_context req r m e).result then "success" else "error",
        e⟩]) ∧
    (∀ req r m e, (log_memory req r m e).observations =
      [⟨"/mcp/memory/log",
        if exceptIsOk (log_memory req r m e).result then "success" else "error",
        e⟩]) ∧
    (∀ req r m e, (submit_task req r m e).observations =
      [⟨"/mcp/task/submit",
        if exceptIsOk (submit_task req r m e).result then "success" else "error",
        e⟩]) ∧
    (∀ o : EndpointObservation, 0 ≤ o.duration) := by
  refine ⟨?_, ?_, ?_, ?_, fun o => Nat.zero_le _⟩
  · intro m i v e
    rfl
  · intro req r m e
    unfold fetch_context
    cases hu : extract_user_id req with
    | none => rfl
    | some uid =>
      cases hc : classifySearchResponse m <;> simp only [hc] <;> rfl
  · intro req r m e
    unfold log_memory
    cases hu : extract_user_id req with
    | none => rfl
    | some uid =>
      cases hc : classifyStoreResponse m <;> simp only [hc] <;> rfl
  · intro req r m e
    unfold submit_task
    cases hu : extract_user_id req with
    | none => rfl
    | some uid =>
      cases hc : classifyChatResponse m <;> simp only [hc] <;> rfl

/-- Claim C2: on every identity-requiring operation, a request from which no
identity can be resolved returns exactly the `Unauthorized` error (external
status 401), and no backend call is issued. -/
theorem C2_unauthorized_fail_fast (req : HttpRequest)
    (h : extract_user_id req = none) :
    (∀ r m e, (fetch_context req r m e).result =
        .error (.Unauthorized "User ID not found in request") ∧
      (fetch_context req r m e).calls = []) ∧
    (∀ r m e, (log_memory req r m e).result =
        .error (.Unauthorized "User ID not found in request") ∧
      (log_memory req r m e).calls = []) ∧
    (∀ r m e, (submit_task req r m e).result =
        .error (.Unauthorized "User ID not found in request") ∧
      (submit_task req r m e).calls = []) ∧
    McpError.status_code (.Unauthorized "User ID not found in request") = 401 := by
  refine ⟨?_, ?_, ?_, rfl⟩ <;> intro r m e <;>
    constructor <;> simp [fetch_context, log_memory, submit_task, h]

/-- Witness for C2: a request with only an `Authorization` Bearer header
resolves to no identity and is rejected without any backend call. -/
theorem C2_unauthorized_fail_fast_witness :
    (fetch_context ⟨none, [("Authorization", some "Bearer tok1")]⟩
      ⟨"a.py", none, none, none⟩ (.transportError "conn refused") 3).result =
      .error (.Unauthorized "User ID not found in request") ∧
    (fetch_context ⟨none, [("Authorization", some "Bearer tok1")]⟩
      ⟨"a.py", none, none, none⟩ (.transportError "conn refused") 3).calls = [] :=
  (C2_unauthorized_fail_fast ⟨none, [("Authorization", some "Bearer tok1")]⟩
    rfl).1 ⟨"a.py", none, none, none⟩ (.transportError "conn refused") 3

/-- Claim C7: whenever identity resolves, a task-submit request with file
context present sends to the intelligence backend exactly the templated
message "File Context:\n" ++ file_context ++ "\n\nTask: " ++ task_description,
and every outbound call of the handler carries `use_memory = true`. -/
theorem C7_task_template (req : HttpRequest) (uid : String)
    (h : extract_user_id req = some uid) :
    (∀ (desc ctx : String) (sid : Option Uuid) (out : BackendOutcome) (e : Nat),
      (submit_task req ⟨desc, some ctx, sid⟩ out e).calls =
        [.chatMessage uid
          ⟨"File Context:\n" ++ ctx ++ "\n\nTask: " ++ desc, sid, true⟩]) ∧
    (∀ (r : TaskSubmitRequest) (out : BackendOutcome) (e : Nat),
      ∀ c ∈ (submit_task req r out e).calls,
        ∃ body, c = .chatMessage uid body ∧ body.use_memory = true) := by
  constructor
  · intro desc ctx sid out e
    unfold submit_task
    simp only [h]
    cases hc : classifyChatResponse out <;> simp [hc, chatRequestBody]
  · intro r out e c hc
    unfold submit_task at hc
    simp only [h] at hc
    cases hcl : classifyChatResponse out <;> simp only [hcl] at hc <;>
      simp at hc <;> exact ⟨_, hc, rfl⟩

/-- Witness for C7: the concrete scenario of the spec — task "fix bug" with
file context "def f(): pass" and identity "u1" — yields the exact outbound
message. -/
theorem C7_task_template_witness :
    (submit_task ⟨some "u1", []⟩ ⟨"fix bug", some "def f(): pass", none⟩
      (.transportError "down") 0).calls =
      [.chatMessage "u1"
        ⟨"File Context:\ndef f(): pass\n\nTask: fix bug", none, true⟩] :=
  (C7_task_template ⟨some "u1", []⟩ "u1" rfl).1 "fix bug" "def f(): pass" none
    (.transportError "down") 0

/-- Claim C8: identity resolution tries the request-context identity first,
then the `X-User-Id` header, and returns `none` otherwise; in particular an
`Authorization` Bearer header alone never satisfies resolution. The embedded
`extract_user_id` is a pure function of the request, so it has no side
effects. -/
theorem C8_identity_resolution_order (req : HttpRequest) :
    extract_user_id req =
      (req.extensions_user).orElse (fun _ => headerStrValue req "X-User-Id") ∧
    (∀ u, req.extensions_user = some u → extract_user_id req = some u) ∧
    (req.extensions_user = none →
      extract_user_id req = headerStrValue req "X-User-Id") ∧
    (req.extensions_user = none → headerGet req "X-User-Id" = none →
      extract_user_id req = none) := by
  have key : extract_user_id req =
      (req.extensions_user).orElse (fun _ => headerStrValue req "X-User-Id") := by
    unfold extract_user_id headerStrValue
    cases req.extensions_user with
    | some u => rfl
    | none =>
      cases hx : headerGet req "X-User-Id" with
      | some v =>
        cases v with
        | some s => rfl
        | none =>
          cases ha : headerGet req "Authorization" with
          | some w => cases w <;> rfl
          | none => rfl
      | none =>
        cases ha : headerGet req "Authorization" with
        | some w => cases w <;> rfl
        | none => rfl
  refine ⟨key, ?_, ?_, ?_⟩
  · intro u hu
    rw [key, hu]
    rfl
  · intro h1
    rw [key, h1]
    rfl
  · intro h1 h2
    rw [key, h1]
    unfold headerStrValue
    rw [h2]
    rfl

/-- Witness for C8: a request whose only identity-related material is a
Bearer token resolves to no identity. -/
theorem C8_identity_resolution_order_witness :
    extract_user_id ⟨none, [("Authorization", some "Bearer abc")]⟩ = none :=
  (C8_identity_resolution_order ⟨none, [("Authorization", some "Bearer abc")]⟩
    ).2.2.2 rfl rfl

/-- Claim C9: whenever identity resolves, the memory-log handler forwards the
request's optional `outcome` field both as the store payload's
`output_response` and as its `outcome`, while the request's `content` field
only enters the synthesized `input_context` string. -/
theorem C9_outcome_forwarded (req : HttpRequest) (uid : String)
    (h : extract_user_id req = some uid) (r : MemoryLogRequest)
    (out : BackendOutcome) (e : Nat) :
    (log_memory req r out e).calls =
      [.memoryStore uid
        { memory_type := "code_interaction"
        , input_context := "File: " ++ r.file_path ++ "\nAction: " ++ r.action
            ++ "\n" ++ r.content.getD ""
        , output_response := r.outcome
        , outcome := r.outcome
        , tier := "ltm"
        , tags := some [r.action, "vscode", "mcp"] }] := by
  unfold log_memory
  simp only [h]
  cases hc : classifyStoreResponse out <;> simp [hc, storeRequestBody]

/-- Witness for C9: a concrete memory-log call with content and outcome both
present; `output_response` and `outcome` both carry the request's outcome. -/
theorem C9_outcome_forwarded_witness :
    (log_memory ⟨some "u9", []⟩ ⟨"b.py", "edit", some "print(1)", some "ok", none⟩
      (.transportError "down") 0).calls =
      [.memoryStore "u9"
        { memory_type := "code_interaction"
        , input_context := "File: b.py\nAction: edit\nprint(1)"
        , output_response := some "ok"
        , outcome := some "ok"
        , tier := "ltm"
        , tags := some ["edit", "vscode", "mcp"] }] :=
  C9_outcome_forwarded ⟨some "u9", []⟩ "u9" rfl
    ⟨"b.py", "edit", some "print(1)", some "ok", none⟩ (.transportError "down") 0

/-- Claim C10: a request carrying the `X-User-Id` header with an empty-string
value (and no context-attached identity) resolves to the empty-string
identity, and the identity-requiring handlers proceed to the backend call
with identity "" rather than failing with Unauthorized. -/
theorem C10_empty_identity_header (req : HttpRequest)
    (h1 : req.extensions_user = none)
    (h2 : headerGet req "X-User-Id" = some (some "")) :
    extract_user_id req = some "" ∧
    (∀ r m e, (fetch_context req r m e).calls =
      [.memorySearch ""
        (searchRequestBody
          (match r.file_content with
           | some content => r.file_path ++ " " ++ content
           | none => r.file_path)
          (some (r.limit.getD 5)))]) ∧
    (∀ r m e, (log_memory req r m e).calls =
      [.memoryStore ""
        (storeRequestBody "code_interaction"
          ("File: " ++ r.file_path ++ "\nAction: " ++ r.action ++ "\n"
            ++ r.content.getD "")
          r.outcome r.outcome (some [r.action, "vscode", "mcp"]))]) ∧
    (∀ r m e, (submit_task req r m e).calls =
      [.chatMessage ""
        (chatRequestBody
          (match r.file_context with
           | some context =>
             "File Context:\n" ++ context ++ "\n\nTask: " ++ r.task_description
           | none => r.task_description)
          r.session_id true)]) := by
  have hid : extract_user_id req = some "" := by
    unfold extract_user_id
    rw [h1, h2]
  refine ⟨hid, ?_, ?_, ?_⟩
  · intro r m e
    unfold fetch_context
    simp only [hid]
    cases hc : classifySearchResponse m <;> simp [hc]
  · intro r m e
    unfold log_memory
    simp only [hid]
    cases hc : classifyStoreResponse m <;> simp [hc]
  · intro r m e
    unfold submit_task
    simp only [hid]
    cases hc : classifyChatResponse m <;> simp [hc]

/-- Witness for C10: a request whose only header is an empty `X-User-Id`
resolves to the empty identity and the context-fetch backend call is issued
with identity "". -/
theorem C10_empty_identity_header_witness :
    extract_user_id ⟨none, [("X-User-Id", some "")]⟩ = some "" ∧
    (fetch_context ⟨none, [("X-User-Id", some "")]⟩ ⟨"a.py", none, none, none⟩
      (.transportError "down") 0).calls =
      [.memorySearch "" (searchRequestBody "a.py" (some 5))] :=
  ⟨(C10_empty_identity_header ⟨none, [("X-User-Id", some "")]⟩ rfl rfl).1,
   (C10_empty_identity_header ⟨none, [("X-User-Id", some "")]⟩ rfl rfl).2.1
     ⟨"a.py", none, none, none⟩ (.transportError "down") 0⟩

end NovaCore
